import Mathlib

/-!
Verification development for the screencontrol helper scripts.

Part 1 models `scripts/sc_capture_thumbnail.py`: the `main` procedure is a
strictly sequential orchestration of external calls (D-Bus, a signal wait,
one subprocess, two file-system queries).  Each external interaction is an
oracle field of `CaptureEnv`; `pyMain` replays the control flow of the
script over those oracles and records the externally observable effects:
which session handles `_stop` was invoked on, which pipeline command was
launched, the status lines printed to stdout, and the process exit code.

Part 2 models `chat_window.py`: the stdin reader thread
(`ChatWindow._start_stdin_reader`) and the send handler
(`ChatWindow._on_send`).  JSON values are an inductive type; `json.loads`
is an oracle `String → Option Json` (`none` models `json.JSONDecodeError`).
-/

/-- The closed set of error codes the capture script prints, read off the
four `print("ERROR:...")` sites in `sc_capture_thumbnail.py`. -/
inductive ErrCode
  | dbus_connect
  | no_pipewire_node
  | capture
  | empty_file
deriving DecidableEq, Repr

/-- The literal code string used on the wire for each error code. -/
def ErrCode.text : ErrCode → String
  | .dbus_connect => "dbus_connect"
  | .no_pipewire_node => "no_pipewire_node"
  | .capture => "capture"
  | .empty_file => "empty_file"

/-- One status line on stdout: `OK:<bytes>` or `ERROR:<code>[:<detail>]`. -/
inductive StatusLine
  | ok (bytes : Nat)
  | err (code : ErrCode) (detail : Option String)
deriving DecidableEq, Repr

/-- Outcome of `subprocess.run(gst_cmd, timeout=10, ...)`.  With no
`check=True`, a completed subprocess never raises, whatever its exit
status; exceeding the timeout raises `subprocess.TimeoutExpired`; any
other launch failure (e.g. missing executable) raises some exception. -/
inductive PipelineOutcome
  | completed (exitStatus : Int)
  | timedOut
  | raised (msg : String)
deriving DecidableEq, Repr

/-- Oracles for the external world the capture script talks to, one per
interaction site of `main`, in program order.  `Except` carries the Python
exception message when the call raises. -/
structure CaptureEnv where
  /-- `Gio.bus_get_sync` (step 1). -/
  busConnect : Except String Unit
  /-- `CreateSession` D-Bus call; `ok` yields the session object path (step 2). -/
  createSession : Except String String
  /-- `RecordMonitor` D-Bus call; `ok` yields the stream object path (step 3). -/
  recordMonitor : Except String String
  /-- `Start` D-Bus call (step 5). -/
  startSession : Except String Unit
  /-- Result of the 5-second wait for `PipeWireStreamAdded`:
  `some n` is the PipeWire node id, `none` is a timeout (steps 4, 6). -/
  signalNode : Option Nat
  /-- The GStreamer subprocess (step 7). -/
  pipeline : PipelineOutcome
  /-- The output file after step 7: `none` if `os.path.exists` is false,
  `some n` if it exists with `os.path.getsize` equal to `n`. -/
  fileSize : Option Nat
deriving Repr

/-- Externally observable effects of one invocation of the script. -/
structure CaptureResult where
  /-- Session object paths `_stop` was invoked on, in order. -/
  stops : List String
  /-- The argv of the GStreamer subprocess, if one was launched. -/
  invoked : Option (List String)
  /-- Status lines printed to stdout, in order. -/
  outLines : List StatusLine
  /-- Process exit code. -/
  exitCode : Nat
deriving DecidableEq, Repr

/-- The `gst_cmd` list built in `main`, verbatim from the source. -/
def gstCmd (pwNode : Nat) (quality outputPath : String) : List String :=
  ["gst-launch-1.0",
   "-e",
   "pipewiresrc",
   "path=" ++ toString pwNode,
   "do-timestamp=true",
   "keepalive-time=1000",
   "num-buffers=1",
   "!",
   "videoconvert",
   "!",
   "jpegenc",
   "quality=" ++ quality,
   "!",
   "filesink",
   "location=" ++ outputPath]

/-- The final check of `main` (its last `if`): status line and exit code
as a function of the output file's state. -/
def finalCheck (fileSize : Option Nat) : StatusLine × Nat :=
  match fileSize with
  | some n => if 0 < n then (.ok n, 0) else (.err .empty_file none, 1)
  | none => (.err .empty_file none, 1)

/-- `main` of `sc_capture_thumbnail.py` over the oracles of `env`.

Control flow mirrors the script: argument defaulting; the first `try`
around the bus connection; the second `try` around steps 2-7 whose
`except Exception` prints `ERROR:capture:<e>` and exits 1 (note: without
calling `_stop`); the explicit `_stop` calls on the no-node path and after
the subprocess call; the final file check.  A pipeline timeout raises
`TimeoutExpired` inside the `try`, so it lands in the `capture` handler. -/
def pyMain (argv : List String) (env : CaptureEnv) : CaptureResult :=
  let outputPath := argv.getD 1 "/tmp/sc_thumbnail.jpg"
  let quality := argv.getD 2 "75"
  match env.busConnect with
  | .error e => ⟨[], none, [.err .dbus_connect (some e)], 1⟩
  | .ok _ =>
    match env.createSession with
    | .error e => ⟨[], none, [.err .capture (some e)], 1⟩
    | .ok sessionPath =>
      match env.recordMonitor with
      | .error e => ⟨[], none, [.err .capture (some e)], 1⟩
      | .ok _streamPath =>
        match env.startSession with
        | .error e => ⟨[], none, [.err .capture (some e)], 1⟩
        | .ok _ =>
          match env.signalNode with
          | none => ⟨[sessionPath], none, [.err .no_pipewire_node none], 1⟩
          | some pwNode =>
            let cmd := gstCmd pwNode quality outputPath
            match env.pipeline with
            | .timedOut => ⟨[], some cmd, [.err .capture (some "TimeoutExpired")], 1⟩
            | .raised msg => ⟨[], some cmd, [.err .capture (some msg)], 1⟩
            | .completed _ =>
              ⟨[sessionPath], some cmd,
               [(finalCheck env.fileSize).1], (finalCheck env.fileSize).2⟩

/-- True on `ok`. -/
def exceptOk {α : Type} : Except String α → Bool
  | .ok _ => true
  | .error _ => false

/-- True when `subprocess.run` returned (did not raise). -/
def PipelineOutcome.isCompleted : PipelineOutcome → Bool
  | .completed _ => true
  | _ => false

/-- The exact condition, read off the control flow of `main`, under which
the script's `_stop` is invoked once a session exists: every later step
inside the `try` must not raise, and after a node id arrives the
subprocess must return rather than raise. -/
def stopReached (env : CaptureEnv) : Bool :=
  exceptOk env.recordMonitor && exceptOk env.startSession &&
    (env.signalNode.isNone || env.pipeline.isCompleted)

/-- An environment in which the session is created but `RecordMonitor`
raises: the `except` handler runs and `_stop` is never invoked. -/
def envRecordFails : CaptureEnv :=
  ⟨.ok (), .ok "/org/gnome/Mutter/ScreenCast/Session/s1", .error "boom",
   .ok (), some 42, .completed 0, some 100⟩

/-- An environment in which everything up to the pipeline succeeds but the
subprocess exceeds its 10-second budget, and the output file is present
and non-empty (e.g. left over from an earlier run). -/
def envPipelineTimesOut : CaptureEnv :=
  ⟨.ok (), .ok "/org/gnome/Mutter/ScreenCast/Session/s1",
   .ok "/org/gnome/Mutter/ScreenCast/Stream/t1",
   .ok (), some 42, .timedOut, some 100⟩

/-- A fully successful environment. -/
def envAllOk : CaptureEnv :=
  ⟨.ok (), .ok "/org/gnome/Mutter/ScreenCast/Session/s1",
   .ok "/org/gnome/Mutter/ScreenCast/Stream/t1",
   .ok (), some 42, .completed 0, some 4321⟩

/-- An environment that times out waiting for `PipeWireStreamAdded`. -/
def envNoNode : CaptureEnv :=
  ⟨.ok (), .ok "/org/gnome/Mutter/ScreenCast/Session/s1",
   .ok "/org/gnome/Mutter/ScreenCast/Stream/t1",
   .ok (), none, .completed 0, none⟩

lemma finalCheck_exit_iff (fs : Option Nat) :
    (finalCheck fs).2 = 0 ↔ ∃ b, (finalCheck fs).1 = StatusLine.ok b := by
  rcases fs with _ | n
  · simp [finalCheck]
  · by_cases h : 0 < n <;> simp [finalCheck, h]

/-- C1 (counterexample): an execution in which `CreateSession` returned a
session handle but `RecordMonitor` then raised terminates via the
`except` handler with `ERROR:capture` — and `_stop` is never invoked
(`stops = []`), refuting the claim that every terminating path after
session creation calls `_stop`. -/
theorem c1_counterexample :
    envRecordFails.createSession = .ok "/org/gnome/Mutter/ScreenCast/Session/s1" ∧
    pyMain ["capture"] envRecordFails =
      ⟨[], none, [.err .capture (some "boom")], 1⟩ :=
  ⟨rfl, rfl⟩

/-- C1 (amended): once a session handle exists, `_stop` is invoked on it
exactly on the non-raising paths — the notification-timeout path and the
path where the subprocess returns — and on no exception path of steps
2-7, `except` having no `finally` companion. -/
theorem c1_stop_exactly_on_nonraising_paths (argv : List String) (env : CaptureEnv)
    (s : String) (hb : env.busConnect = .ok ()) (hc : env.createSession = .ok s) :
    (pyMain argv env).stops = if stopReached env then [s] else [] := by
  obtain ⟨bc, cs, rm, ss, sn, pl, fs⟩ := env
  simp only at hb hc
  subst hb hc
  cases rm <;> cases ss <;> cases sn <;> cases pl <;>
    simp [pyMain, stopReached, exceptOk, PipelineOutcome.isCompleted]

/-- Witness for `c1_stop_exactly_on_nonraising_paths` at a concrete
successful environment. -/
theorem c1_stop_witness :
    (pyMain ["capture"] envAllOk).stops =
      if stopReached envAllOk then ["/org/gnome/Mutter/ScreenCast/Session/s1"] else [] :=
  c1_stop_exactly_on_nonraising_paths ["capture"] envAllOk
    "/org/gnome/Mutter/ScreenCast/Session/s1" rfl rfl

/-- C2 (counterexample): the subprocess exceeds its 10-second budget while
the output file exists and is non-empty; `subprocess.TimeoutExpired`
lands in the generic handler, so the run prints `ERROR:capture`
(not `ERROR:empty_file`), exits 1, and never stops the session —
refuting the claim that a timeout still leads to step 8 and step 9. -/
theorem c2_counterexample :
    envPipelineTimesOut.pipeline = .timedOut ∧
    envPipelineTimesOut.fileSize = some 100 ∧
    pyMain ["capture"] envPipelineTimesOut =
      ⟨[], some (gstCmd 42 "75" "/tmp/sc_thumbnail.jpg"),
       [.err .capture (some "TimeoutExpired")], 1⟩ :=
  ⟨rfl, rfl, rfl⟩

/-- C2 (amended): when the subprocess returns within its 10-second budget
— whatever its exit status — the procedure stops the session and judges
the run purely by the output file (`finalCheck`); when it exceeds the
budget, `TimeoutExpired` propagates to the generic handler, which prints
`ERROR:capture:...` and exits 1 without stopping the session. -/
theorem c2_pipeline_outcome (argv : List String) (env : CaptureEnv)
    (s r : String) (n : Nat) (code : Int)
    (hb : env.busConnect = .ok ()) (hc : env.createSession = .ok s)
    (hr : env.recordMonitor = .ok r) (hs : env.startSession = .ok ())
    (hn : env.signalNode = some n) :
    (env.pipeline = .completed code →
      pyMain argv env =
        ⟨[s], some (gstCmd n (argv.getD 2 "75") (argv.getD 1 "/tmp/sc_thumbnail.jpg")),
         [(finalCheck env.fileSize).1], (finalCheck env.fileSize).2⟩) ∧
    (env.pipeline = .timedOut →
      (pyMain argv env).stops = [] ∧
      (pyMain argv env).outLines = [.err .capture (some "TimeoutExpired")] ∧
      (pyMain argv env).exitCode = 1) := by
  obtain ⟨bc, cs, rm, ss, sn, pl, fs⟩ := env
  simp only at hb hc hr hs hn
  subst hb hc hr hs hn
  constructor <;> intro hp <;> simp only at hp <;> subst hp <;> simp [pyMain]

/-- Witness for `c2_pipeline_outcome` at a concrete successful
environment. -/
theorem c2_pipeline_witness :
    pyMain ["capture"] envAllOk =
      ⟨["/org/gnome/Mutter/ScreenCast/Session/s1"],
       some (gstCmd 42 "75" "/tmp/sc_thumbnail.jpg"),
       [(finalCheck envAllOk.fileSize).1], (finalCheck envAllOk.fileSize).2⟩ :=
  (c2_pipeline_outcome ["capture"] envAllOk
    "/org/gnome/Mutter/ScreenCast/Session/s1"
    "/org/gnome/Mutter/ScreenCast/Stream/t1" 42 0
    rfl rfl rfl rfl rfl).1 rfl

/-- C6: every invocation prints exactly one status line; the exit code is
0 exactly when that line is an `OK` line; and every error code the script
can print is drawn from the closed four-element set. -/
theorem c6_single_status_line (argv : List String) (env : CaptureEnv) :
    (pyMain argv env).outLines.length = 1 ∧
    ((pyMain argv env).exitCode = 0 ↔ ∃ b, (pyMain argv env).outLines = [.ok b]) ∧
    (∀ c : ErrCode,
      c.text ∈ ["dbus_connect", "no_pipewire_node", "capture", "empty_file"]) := by
  refine ⟨?_, ?_, ?_⟩
  · obtain ⟨bc, cs, rm, ss, sn, pl, fs⟩ := env
    cases bc <;> cases cs <;> cases rm <;> cases ss <;> cases sn <;> cases pl <;>
      simp [pyMain]
  · obtain ⟨bc, cs, rm, ss, sn, pl, fs⟩ := env
    cases bc <;> cases cs <;> cases rm <;> cases ss <;> cases sn <;> cases pl <;>
      simp [pyMain, finalCheck_exit_iff]
  · intro c
    cases c <;> simp [ErrCode.text]

/-- C7: once the run reaches the final check (subprocess returned), a
present, non-empty output file of size `m` yields `OK:m` and exit code 0;
a missing or zero-length file yields `ERROR:empty_file` and exit code 1. -/
theorem c7_final_check (argv : List String) (env : CaptureEnv)
    (s r : String) (n : Nat) (code : Int)
    (hb : env.busConnect = .ok ()) (hc : env.createSession = .ok s)
    (hr : env.recordMonitor = .ok r) (hs : env.startSession = .ok ())
    (hn : env.signalNode = some n) (hp : env.pipeline = .completed code) :
    (∀ m : Nat, env.fileSize = some m → 0 < m →
      (pyMain argv env).outLines = [.ok m] ∧ (pyMain argv env).exitCode = 0) ∧
    ((env.fileSize = none ∨ env.fileSize = some 0) →
      (pyMain argv env).outLines = [.err .empty_file none] ∧
      (pyMain argv env).exitCode = 1) := by
  obtain ⟨bc, cs, rm, ss, sn, pl, fs⟩ := env
  simp only at hb hc hr hs hn hp
  subst hb hc hr hs hn hp
  constructor
  · intro m hm h0
    simp only at hm
    subst hm
    simp [pyMain, finalCheck, h0]
  · intro hfs
    rcases hfs with hfs | hfs <;> simp only at hfs <;> subst hfs <;>
      simp [pyMain, finalCheck]

/-- Witness for `c7_final_check` at a concrete environment whose output
file has size 4321. -/
theorem c7_final_check_witness :
    (pyMain ["capture"] envAllOk).outLines = [.ok 4321] ∧
    (pyMain ["capture"] envAllOk).exitCode = 0 :=
  (c7_final_check ["capture"] envAllOk
    "/org/gnome/Mutter/ScreenCast/Session/s1"
    "/org/gnome/Mutter/ScreenCast/Stream/t1" 42 0
    rfl rfl rfl rfl rfl rfl).1 4321 rfl (by decide)

/-- C10: a missing output-path argument defaults to
`/tmp/sc_thumbnail.jpg` and a missing quality argument to `"75"`, so an
argv of just the program name behaves exactly like one carrying both
defaults; the quality string is spliced verbatim (uninterpreted) into the
pipeline argv; and with defaults the launched command is
`gstCmd n "75" "/tmp/sc_thumbnail.jpg"`. -/
theorem c10_argument_defaults (prog q p : String) (node : Nat) (env : CaptureEnv)
    (s r : String) (n : Nat)
    (hb : env.busConnect = .ok ()) (hc : env.createSession = .ok s)
    (hr : env.recordMonitor = .ok r) (hs : env.startSession = .ok ())
    (hn : env.signalNode = some n) :
    pyMain [prog] env = pyMain [prog, "/tmp/sc_thumbnail.jpg", "75"] env ∧
    ("quality=" ++ q) ∈ gstCmd node q p ∧
    (pyMain [prog] env).invoked = some (gstCmd n "75" "/tmp/sc_thumbnail.jpg") := by
  obtain ⟨bc, cs, rm, ss, sn, pl, fs⟩ := env
  simp only at hb hc hr hs hn
  subst hb hc hr hs hn
  refine ⟨?_, ?_, ?_⟩
  · cases pl <;> simp [pyMain]
  · simp [gstCmd]
  · cases pl <;> simp [pyMain]

/-- Witness for `c10_argument_defaults` at a concrete environment. -/
theorem c10_argument_defaults_witness :
    (pyMain ["capture"] envAllOk).invoked =
      some (gstCmd 42 "75" "/tmp/sc_thumbnail.jpg") :=
  (c10_argument_defaults "capture" "90" "/tmp/x.jpg" 7 envAllOk
    "/org/gnome/Mutter/ScreenCast/Session/s1"
    "/org/gnome/Mutter/ScreenCast/Stream/t1" 42
    rfl rfl rfl rfl rfl).2.2

/-- A JSON value, as produced by `json.loads`. -/
inductive Json
  | null
  | bool (b : Bool)
  | num (n : Int)
  | str (s : String)
  | arr (xs : List Json)
  | obj (fields : List (String × Json))

/-- `dict.get key dflt` on the field list of a decoded JSON object; with
duplicate keys `json.loads` keeps the last occurrence, hence the reverse
search. -/
def lookupD (fields : List (String × Json)) (key : String) (dflt : Json) : Json :=
  match fields.reverse.find? (fun p => p.1 == key) with
  | some p => p.2
  | none => dflt

/-- Drop leading characters satisfying `Char.isWhitespace`. -/
def stripLeading : List Char → List Char
  | [] => []
  | c :: cs => if c.isWhitespace then stripLeading cs else c :: cs

/-- Python's `str.strip()` with no argument: remove leading and trailing
whitespace. -/
def pyStrip (s : String) : String :=
  ⟨(stripLeading ((stripLeading s.data).reverse)).reverse⟩

/-- Transcript styling: `remote` is the tech_name/tech_msg tag pair used
for inbound records, `local` the you_name/you_msg pair used for the
user's own messages. -/
inductive Style
  | remote
  | local
deriving DecidableEq, Repr

/-- One transcript entry appended by `ChatWindow._append_message`: the
sender line, the content line, and which tag pair styled them. -/
structure Entry where
  sender : Json
  content : Json
  style : Style

/-- Observable state of the stdin reader thread: transcript entries it
scheduled onto the UI loop, how many times it scheduled a window raise,
the message of an exception that escaped the thread uncaught (if any),
and whether `root.destroy` was scheduled. -/
structure ReaderOutcome where
  scheduled : List Entry
  raiseCount : Nat
  uncaught : Option String
  destroyScheduled : Bool

/-- The reader outcome before any line is processed. -/
def initOutcome : ReaderOutcome := ⟨[], 0, none, false⟩

/-- The `for line in sys.stdin` loop of
`ChatWindow._start_stdin_reader`, one stripped line at a time.  `parse`
is `json.loads`: `none` models `json.JSONDecodeError`, which the inner
`except` swallows.  A decoded object schedules one remote-styled append
(with `dict.get` defaults) and one window raise.  A decoded non-object
value makes `data.get(...)` raise `AttributeError`, which no handler
catches: the thread dies there and the remaining lines are never read. -/
def runReader (parse : String → Option Json) :
    List String → ReaderOutcome → ReaderOutcome
  | [], acc => acc
  | l :: rest, acc =>
    let s := pyStrip l
    if s = "" then runReader parse rest acc
    else
      match parse s with
      | none => runReader parse rest acc
      | some (.obj fields) =>
        runReader parse rest
          { acc with
            scheduled := acc.scheduled ++
              [⟨lookupD fields "sender" (.str "Support"),
                lookupD fields "content" (.str ""), .remote⟩],
            raiseCount := acc.raiseCount + 1 }
      | some _ => { acc with uncaught := some "AttributeError" }

/-- The standard-input stream as the reader thread sees it: the lines it
yields, then either a clean end-of-file or an `IOError` raised by the
iteration itself. -/
structure StdinStream where
  lines : List String
  endsWithIOError : Bool

/-- The whole reader thread body: run the loop; the outer
`except (EOFError, IOError)` schedules `root.destroy` only when the
iteration raised one of those two — a clean end-of-file falls off the
`for` loop and the `try` body simply finishes, and an `AttributeError`
matches neither clause and escapes the thread. -/
def readerThread (parse : String → Option Json) (stdin : StdinStream) :
    ReaderOutcome :=
  let r := runReader parse stdin.lines initOutcome
  if r.uncaught.isSome then r
  else if stdin.endsWithIOError then { r with destroyScheduled := true }
  else r

/-- The placeholder affordance text inserted by
`ChatWindow._set_placeholder`. -/
def placeholderText : String := "Type a message..."

/-- The input-field state `ChatWindow._on_send` reads: the
`_placeholder_active` flag and the field's current text. -/
structure SendState where
  placeholderActive : Bool
  fieldText : String

/-- Observable effect of one `_on_send` call: transcript entries appended
and JSON records written to stdout. -/
structure SendResult where
  appended : List Entry
  emitted : List Json

/-- `ChatWindow._on_send`: return immediately while the placeholder is
active; strip the field text and return if the result is empty; otherwise
append one local-styled entry and write one `{"content": text}` record. -/
def onSend (st : SendState) : SendResult :=
  if st.placeholderActive then ⟨[], []⟩
  else
    let text := pyStrip st.fieldText
    if text = "" then ⟨[], []⟩
    else
      ⟨[⟨.str "You", .str text, .local⟩],
       [.obj [("content", .str text)]]⟩

/-- A concrete `json.loads` oracle for closed runs: `"5"` decodes to the
number 5, `"objline"` stands for a line that decodes to the object with a
content field `"hi"` and sender `"Tech"`, everything else fails to
decode. -/
def parseDemo : String → Option Json := fun s =>
  if s = "5" then some (.num 5)
  else if s = "objline" then
    some (.obj [("sender", .str "Tech"), ("content", .str "hi")])
  else none

lemma runReader_destroy (parse : String → Option Json) (lines : List String)
    (acc : ReaderOutcome) :
    (runReader parse lines acc).destroyScheduled = acc.destroyScheduled := by
  induction lines generalizing acc with
  | nil => rfl
  | cons l rest ih =>
    by_cases hs : pyStrip l = ""
    · simp [runReader, hs, ih]
    · rcases hv : parse (pyStrip l) with _ | v
      · simp [runReader, hs, hv, ih]
      · cases v <;> simp [runReader, hs, hv, ih]

/-- C3 (counterexample): the line `"5"` is valid JSON whose top-level
value is not an object; `data.get` then raises `AttributeError`, which
neither the inner `except json.JSONDecodeError` nor the outer
`except (EOFError, IOError)` catches — the thread dies with an uncaught
error and the following well-formed line is never processed, refuting
the claim that such lines are silently skipped and processing continues. -/
theorem c3_counterexample :
    parseDemo "5" = some (.num 5) ∧
    (readerThread parseDemo ⟨["5", "objline"], false⟩).uncaught =
      some "AttributeError" ∧
    (readerThread parseDemo ⟨["5", "objline"], false⟩).scheduled = [] :=
  ⟨rfl, rfl, rfl⟩

/-- C3 (amended): a line that fails to decode as JSON at all is silently
skipped and the loop continues with the remaining lines; but a line that
decodes to a non-object JSON value makes the thread die with an uncaught
`AttributeError`, leaving the transcript unchanged and the remaining
lines unprocessed. -/
theorem c3_nonobject_lines (parse : String → Option Json) (l : String)
    (rest : List String) (acc : ReaderOutcome) :
    (parse (pyStrip l) = none →
      runReader parse (l :: rest) acc = runReader parse rest acc) ∧
    (∀ v : Json, pyStrip l ≠ "" → parse (pyStrip l) = some v →
      (∀ fields, v ≠ .obj fields) →
      runReader parse (l :: rest) acc =
        { acc with uncaught := some "AttributeError" }) := by
  constructor
  · intro h
    by_cases hs : pyStrip l = "" <;> simp [runReader, hs, h]
  · intro v hs hv hno
    cases v with
    | obj fields => exact absurd rfl (hno fields)
    | null => simp [runReader, hs, hv]
    | bool b => simp [runReader, hs, hv]
    | num n => simp [runReader, hs, hv]
    | str s => simp [runReader, hs, hv]
    | arr xs => simp [runReader, hs, hv]

/-- Witness for `c3_nonobject_lines`: a line that fails to decode leaves
the run identical to the run on the remaining lines. -/
theorem c3_nonobject_witness :
    runReader (fun _ => none) ["x"] initOutcome =
      runReader (fun _ => none) [] initOutcome :=
  (c3_nonobject_lines (fun _ => none) "x" [] initOutcome).1 rfl

/-- C4 (counterexample): a run whose stdin yields one well-formed line
and then a clean end-of-file terminates the reader without error, yet
`root.destroy` is never scheduled — the loop falls off its end and the
`except (EOFError, IOError)` clause, the only place that schedules the
close, never runs.  This refutes the claim that a cleanly closed stdin
eventually closes the window. -/
theorem c4_counterexample :
    (readerThread parseDemo ⟨["objline"], false⟩).uncaught = none ∧
    (readerThread parseDemo ⟨["objline"], false⟩).destroyScheduled = false :=
  ⟨rfl, rfl⟩

/-- C4 (amended): on a clean end-of-file the reader terminates without
error but never schedules the window close; `root.destroy` is scheduled
exactly when the stdin iteration itself raises `EOFError` or `IOError`
(and no earlier line killed the thread). -/
theorem c4_eof_behaviour (parse : String → Option Json) (lines : List String)
    (h : (runReader parse lines initOutcome).uncaught = none) :
    (readerThread parse ⟨lines, false⟩).uncaught = none ∧
    (readerThread parse ⟨lines, false⟩).destroyScheduled = false ∧
    (readerThread parse ⟨lines, true⟩).destroyScheduled = true := by
  refine ⟨?_, ?_, ?_⟩ <;> simp [readerThread, h, runReader_destroy] <;> rfl

/-- Witness for `c4_eof_behaviour` on a concrete one-line stream. -/
theorem c4_eof_witness :
    (readerThread parseDemo ⟨["objline"], true⟩).destroyScheduled = true :=
  (c4_eof_behaviour parseDemo ["objline"] rfl).2.2

/-- C5 (counterexample): the send guard tests the `_placeholder_active`
flag, not the text.  In the state where the flag is off (the field was
focused) and the user has typed exactly the placeholder text, submitting
emits an outbound record — refuting the claim that a field whose text
equals the placeholder text never emits. -/
theorem c5_counterexample :
    pyStrip placeholderText = placeholderText ∧
    (onSend ⟨false, placeholderText⟩).emitted =
      [.obj [("content", .str placeholderText)]] ∧
    (onSend ⟨false, placeholderText⟩).appended =
      [⟨.str "You", .str placeholderText, .local⟩] :=
  ⟨rfl, rfl, rfl⟩

/-- C5 (amended): an outbound record is emitted exactly when the
placeholder-active flag is off and the stripped field text is non-empty;
the text is never compared against the placeholder string, so user-typed
text equal to it is emitted like any other. -/
theorem c5_send_gate (st : SendState) :
    (onSend st).emitted ≠ [] ↔
      st.placeholderActive = false ∧ pyStrip st.fieldText ≠ "" := by
  rcases st with ⟨pa, tx⟩
  cases pa <;> by_cases h : pyStrip tx = "" <;> simp [onSend, h]

/-- Witness for `c5_send_gate` at the placeholder-typed state. -/
theorem c5_send_gate_witness :
    (onSend ⟨false, placeholderText⟩).emitted ≠ [] :=
  (c5_send_gate ⟨false, placeholderText⟩).mpr ⟨rfl, by decide⟩

/-- C8: a non-blank line that decodes to a JSON object schedules exactly
one remote-styled transcript append — content from the record's content
field, defaulting to the empty string, sender defaulting to "Support" —
and one window raise; over a one-line stream the thread ends with exactly
that entry scheduled and a raise count of one. -/
theorem c8_inbound_record (parse : String → Option Json) (l : String)
    (rest : List String) (acc : ReaderOutcome)
    (fields : List (String × Json))
    (h0 : pyStrip l ≠ "") (h : parse (pyStrip l) = some (.obj fields)) :
    runReader parse (l :: rest) acc =
      runReader parse rest
        { acc with
          scheduled := acc.scheduled ++
            [⟨lookupD fields "sender" (.str "Support"),
              lookupD fields "content" (.str ""), .remote⟩],
          raiseCount := acc.raiseCount + 1 } ∧
    (readerThread parse ⟨[l], false⟩).scheduled =
      [⟨lookupD fields "sender" (.str "Support"),
        lookupD fields "content" (.str ""), .remote⟩] ∧
    (readerThread parse ⟨[l], false⟩).raiseCount = 1 := by
  refine ⟨?_, ?_, ?_⟩ <;>
    simp [runReader, readerThread, initOutcome, h0, h]

/-- Witness for `c8_inbound_record` on the concrete decoded record with
sender "Tech" and content "hi". -/
theorem c8_inbound_witness :
    (readerThread parseDemo ⟨["objline"], false⟩).scheduled =
      [⟨lookupD [("sender", Json.str "Tech"), ("content", Json.str "hi")]
          "sender" (.str "Support"),
        lookupD [("sender", Json.str "Tech"), ("content", Json.str "hi")]
          "content" (.str ""), .remote⟩] :=
  (c8_inbound_record parseDemo "objline" [] initOutcome
    [("sender", Json.str "Tech"), ("content", Json.str "hi")]
    (by decide) rfl).2.1

/-- C9: with the placeholder flag off and non-blank input, `_on_send`
appends exactly one local-styled entry and writes exactly one record
whose content field is the stripped input; blank (empty or
whitespace-only) input appends nothing and emits nothing, whatever the
flag. -/
theorem c9_send_effects (st : SendState) :
    (st.placeholderActive = false → pyStrip st.fieldText ≠ "" →
      onSend st =
        ⟨[⟨.str "You", .str (pyStrip st.fieldText), .local⟩],
         [.obj [("content", .str (pyStrip st.fieldText))]]⟩) ∧
    (pyStrip st.fieldText = "" → onSend st = ⟨[], []⟩) := by
  rcases st with ⟨pa, tx⟩
  constructor
  · intro hpa h
    subst hpa
    simp [onSend, h]
  · intro h
    cases pa <;> simp [onSend, h]

/-- Witness for `c9_send_effects` on a padded concrete input. -/
theorem c9_send_witness :
    onSend ⟨false, "  hello "⟩ =
      ⟨[⟨.str "You", .str (pyStrip "  hello "), .local⟩],
       [.obj [("content", .str (pyStrip "  hello "))]]⟩ :=
  (c9_send_effects ⟨false, "  hello "⟩).1 rfl (by decide)
